import Mathlib

/-!
# Fake-Bot-Detection: a shallow embedding of `backend/main.py`

This file embeds the rule-based AI-text detector of the repository
(feature extraction, scoring, explanation, and the `/detect` endpoint
validation) as executable Lean definitions and proves properties of them.

Modelling conventions:
* Python strings are modelled as `List Char`; the extractor and validator
  operate on character lists obtained from Lean string literals.
* Python floats are modelled exactly by `ℚ`; every scoring constant of the
  source is an exact decimal, so the arithmetic is the ideal arithmetic the
  source approximates.  `np.var` is the population variance.
* Python dictionaries with a fixed key set (the feature dictionary) are
  modelled as a structure with one field per key, keeping the source names.
-/

namespace FakeBot

/-- The apostrophe character (several source phrase lists contain it). -/
def apos : Char := Char.ofNat 39

/-- Python `str.strip()`: drop leading and trailing whitespace. -/
def pyStrip (s : List Char) : List Char :=
  ((s.dropWhile Char.isWhitespace).reverse.dropWhile Char.isWhitespace).reverse

/-- Python `str.split()` with no separator: split on whitespace runs,
dropping empty pieces. -/
def pySplit (s : List Char) : List (List Char) :=
  (s.splitOnP Char.isWhitespace).filter (· ≠ [])

/-- Python's `in` on strings: substring containment. -/
def isSubstr (needle hay : List Char) : Bool :=
  hay.tails.any (fun t => needle.isPrefixOf t)

/-- Worker for `countOcc`: scan left to right; `skip` is the number of
positions still covered by the previous match (for non-overlapping counting). -/
def countOccA (needle : List Char) : List Char → Nat → Nat
  | [], _ => 0
  | c :: rest, skip =>
    if 0 < skip then countOccA needle rest (skip - 1)
    else if needle ≠ [] ∧ needle.isPrefixOf (c :: rest) then
      1 + countOccA needle rest (needle.length - 1)
    else countOccA needle rest 0

/-- Python `str.count(sub)`: number of non-overlapping occurrences of a
(non-empty) pattern, scanning left to right. -/
def countOcc (needle hay : List Char) : Nat :=
  countOccA needle hay 0

/-- Worker for `countRuns`: `cur` is the character of the run in progress and
`runlen` its length so far. -/
def countRunsA : Option Char → Nat → List Char → Nat
  | _, runlen, [] => if 3 ≤ runlen then 1 else 0
  | some c, runlen, d :: rest =>
    if d = c then countRunsA (some c) (runlen + 1) rest
    else (if 3 ≤ runlen then 1 else 0) + countRunsA (some d) 1 rest
  | none, _, d :: rest => countRunsA (some d) 1 rest

/-- Number of maximal runs of one character repeated at least three times,
the match count of the source's `re.findall(r'(.)\1{2,}', text)`. -/
def countRuns (text : List Char) : Nat :=
  countRunsA none 0 text

/-- Python `str.isupper()` restricted to ASCII text: at least one letter and
no lowercase letter. -/
def pyIsUpper (w : List Char) : Bool :=
  w.any (fun c => c.isAlpha) && w.all (fun c => !c.isLower)

/-- Lowercase a word, as Python `str.lower()` does on ASCII text. -/
def lowerChars (s : List Char) : List Char :=
  s.map Char.toLower

/-- Population variance (`np.var`): mean of squared deviations from the mean,
dividing by `N`, not `N - 1`. -/
def popVar (l : List ℚ) : ℚ :=
  let n : ℚ := l.length
  let m : ℚ := l.sum / n
  (l.map (fun x => (x - m) ^ 2)).sum / n

/-- The feature dictionary built by `analyze_text_features`, one field per
key, field names as in the source. -/
structure FeatureSet where
  word_count : ℕ
  char_count : ℕ
  avg_word_length : ℚ
  sentence_count : ℕ
  avg_sentence_length : ℚ
  sentence_length_variance : ℚ
  lexical_diversity : ℚ
  ai_phrase_count : ℕ
  exclamation_count : ℕ
  question_count : ℕ
  ellipsis_count : ℕ
  comma_count : ℕ
  uppercase_word_ratio : ℚ
  contraction_count : ℕ
  slang_count : ℕ
  repeated_chars : ℕ
  formal_transition_count : ℕ
  deriving DecidableEq

/-- Helper to build the source's apostrophe-bearing string constants. -/
def withApos (a b : String) : List Char :=
  a.data ++ apos :: b.data

/-- The fixed AI-phrase list of the source (22 entries). -/
def ai_phrases : List (List Char) :=
  [ "as an ai".data, "language model".data, withApos "i don" "t have",
    "i cannot".data, withApos "i can" "t",
    withApos "it" "s important to note", "it is important to note".data,
    "in conclusion".data, "furthermore".data, "moreover".data, "however".data,
    withApos "it" "s worth noting", "it is worth noting".data,
    "i apologize".data, withApos "i" "m sorry", "my apologies".data,
    "delve into".data, "navigating".data, "landscape of".data,
    "realm of".data, withApos "it" "s crucial", "underscores the importance".data ]

/-- The fixed contraction-suffix list of the source. -/
def contractions : List (List Char) :=
  [ withApos "n" "t", withApos "" "m", withApos "" "re", withApos "" "ve",
    withApos "" "ll", withApos "" "d", withApos "" "s" ]

/-- The fixed slang-word list of the source. -/
def slang_words : List (List Char) :=
  [ "lol".data, "omg".data, "btw".data, "idk".data, "tbh".data, "ngl".data,
    "fr".data, "rn".data, "gonna".data, "wanna".data, "gotta".data ]

/-- The fixed formal-transition list of the source (9 entries). -/
def formal_transitions : List (List Char) :=
  [ "furthermore".data, "moreover".data, "additionally".data,
    "consequently".data, "therefore".data, "thus".data, "hence".data,
    "accordingly".data, "nevertheless".data ]

/-- The sentence list of `analyze_text_features`: split on runs of `.`, `!`,
`?` and drop segments that are empty after stripping. -/
def pySentences (text : List Char) : List (List Char) :=
  ((text.splitOnP (fun c => c = '.' || c = '!' || c = '?')).map pyStrip).filter (· ≠ [])

/-- `analyze_text_features` of the source, over the text as a character
list. -/
def analyze_text_features (text : List Char) : FeatureSet :=
  let words := pySplit text
  let word_count := words.length
  let sentences := pySentences text
  let sentence_lengths : List ℚ := sentences.map (fun s => ((pySplit s).length : ℚ))
  let words_lower := words.map lowerChars
  let text_lower := lowerChars text
  let uppercase_words := words.countP (fun w => pyIsUpper w && decide (1 < w.length))
  { word_count := word_count
    char_count := text.length
    avg_word_length := ((words.map List.length).sum : ℚ) / (max word_count 1 : ℕ)
    sentence_count := sentences.length
    avg_sentence_length := (word_count : ℚ) / (max sentences.length 1 : ℕ)
    sentence_length_variance :=
      if 1 < sentences.length then popVar sentence_lengths else 0
    lexical_diversity := (words_lower.dedup.length : ℚ) / (max word_count 1 : ℕ)
    ai_phrase_count := ai_phrases.countP (fun p => isSubstr p text_lower)
    exclamation_count := text.count '!'
    question_count := text.count '?'
    ellipsis_count := countOcc "...".data text
    comma_count := text.count ','
    uppercase_word_ratio := (uppercase_words : ℚ) / (max word_count 1 : ℕ)
    contraction_count := (contractions.map (fun c => countOcc c text)).sum
    slang_count := words_lower.countP (fun w => w ∈ slang_words)
    repeated_chars := countRuns text
    formal_transition_count :=
      formal_transitions.countP (fun w => isSubstr w text_lower) }

/-- Format a nonnegative rational with `digits` decimal places, as Python's
fixed-point formatting does on the exact decimal values this service
produces (no rounding is ever needed for them). -/
def fmtFixed (digits : ℕ) (q : ℚ) : String :=
  let c : ℤ := Rat.floor (q * (10 : ℚ) ^ digits)
  let ip : ℤ := c / (10 : ℤ) ^ digits
  let fp : ℕ := (c % (10 : ℤ) ^ digits).toNat
  let fpStr := toString fp
  let pad := String.mk (List.replicate (digits - fpStr.length) '0')
  toString ip ++ "." ++ pad ++ fpStr

/-- `calculate_ai_score` of the source.  The source also receives the raw
text but never reads it, so that argument is omitted.  Returns
`(ai_probability, human_probability, confidence_factors)`. -/
def calculate_ai_score (features : FeatureSet) : ℚ × ℚ × List String :=
  let score : ℚ := 0.5
  let confidence_factors : List String := []
  -- Feature 1: AI phrases (very strong indicator)
  let ai_phrase_boost := min 0.25 ((features.ai_phrase_count : ℚ) * 0.15)
  let score := if 0 < features.ai_phrase_count then score + ai_phrase_boost else score
  let confidence_factors := if 0 < features.ai_phrase_count then
    confidence_factors ++ ["AI phrases: +" ++ fmtFixed 2 ai_phrase_boost] else confidence_factors
  -- Feature 2: lexical diversity
  let score := if features.lexical_diversity > 0.80 then score + 0.15
    else if features.lexical_diversity < 0.60 then score - 0.12 else score
  let confidence_factors := if features.lexical_diversity > 0.80 then
      confidence_factors ++ ["High lexical diversity: +0.15"]
    else if features.lexical_diversity < 0.60 then
      confidence_factors ++ ["Low lexical diversity: -0.12"] else confidence_factors
  -- Feature 3: sentence length uniformity
  let score := if features.sentence_length_variance < 10 ∧ 2 < features.sentence_count
    then score + 0.12
    else if features.sentence_length_variance > 30 then score - 0.10 else score
  let confidence_factors :=
    if features.sentence_length_variance < 10 ∧ 2 < features.sentence_count then
      confidence_factors ++ ["Uniform sentences: +0.12"]
    else if features.sentence_length_variance > 30 then
      confidence_factors ++ ["Varied sentences: -0.10"] else confidence_factors
  -- Feature 4: average sentence length
  let score := if features.avg_sentence_length > 25 then score + 0.10
    else if features.avg_sentence_length < 15 then score - 0.08 else score
  let confidence_factors := if features.avg_sentence_length > 25 then
      confidence_factors ++ ["Long sentences: +0.10"]
    else if features.avg_sentence_length < 15 then
      confidence_factors ++ ["Short sentences: -0.08"] else confidence_factors
  -- Feature 5: formal transitions
  let score := if 2 < features.formal_transition_count then score + 0.12 else score
  let confidence_factors := if 2 < features.formal_transition_count then
    confidence_factors ++ ["Formal transitions: +0.12"] else confidence_factors
  -- Feature 6: punctuation variety
  let score := if 0 < features.exclamation_count ∨ 1 < features.question_count
    then score - 0.10 else score
  let confidence_factors := if 0 < features.exclamation_count ∨ 1 < features.question_count
    then confidence_factors ++ ["Varied punctuation: -0.10"] else confidence_factors
  let score := if 0 < features.ellipsis_count then score - 0.08 else score
  let confidence_factors := if 0 < features.ellipsis_count then
    confidence_factors ++ ["Ellipsis usage: -0.08"] else confidence_factors
  -- Feature 7: contractions
  let contractionRatio := (features.contraction_count : ℚ) / (max features.word_count 1 : ℕ)
  let score := if contractionRatio > 0.03 then score - 0.12
    else if contractionRatio = 0 ∧ 50 < features.word_count then score + 0.08 else score
  let confidence_factors := if contractionRatio > 0.03 then
      confidence_factors ++ ["High contractions: -0.12"]
    else if contractionRatio = 0 ∧ 50 < features.word_count then
      confidence_factors ++ ["No contractions: +0.08"] else confidence_factors
  -- Feature 8: slang and informal language
  let slang_boost := min 0.20 ((features.slang_count : ℚ) * 0.10)
  let score := if 0 < features.slang_count then score - slang_boost else score
  let confidence_factors := if 0 < features.slang_count then
    confidence_factors ++ ["Slang words: -" ++ fmtFixed 2 slang_boost] else confidence_factors
  -- Feature 9: repeated characters
  let score := if 0 < features.repeated_chars then score - 0.10 else score
  let confidence_factors := if 0 < features.repeated_chars then
    confidence_factors ++ ["Repeated chars: -0.10"] else confidence_factors
  -- Feature 10: uppercase emphasis
  let score := if FeatureSet.uppercase_word_ratio features > 0.05 then score - 0.08 else score
  let confidence_factors := if FeatureSet.uppercase_word_ratio features > 0.05 then
    confidence_factors ++ ["Uppercase emphasis: -0.08"] else confidence_factors
  -- Feature 11: very short text is pulled toward neutral
  let score := if features.word_count < 30 then 0.5 + (score - 0.5) * 0.6 else score
  let confidence_factors := if features.word_count < 30 then
    confidence_factors ++ ["Short text: reduced confidence"] else confidence_factors
  -- Feature 12: perfect grammar and structure
  let score := if features.exclamation_count = 0 ∧ features.slang_count = 0 ∧
      features.repeated_chars = 0 ∧ features.lexical_diversity > 0.75 ∧
      40 < features.word_count then score + 0.10 else score
  let confidence_factors := if features.exclamation_count = 0 ∧ features.slang_count = 0 ∧
      features.repeated_chars = 0 ∧ features.lexical_diversity > 0.75 ∧
      40 < features.word_count then
    confidence_factors ++ ["Perfect structure: +0.10"] else confidence_factors
  -- Clamp score between 0.05 and 0.95
  let score := max 0.05 (min 0.95 score)
  (score, 1 - score, confidence_factors)

/-- `get_explanation` of the source (its `factors` argument is also unused
there). -/
def get_explanation (is_ai : Bool) (confidence : ℚ) (features : FeatureSet)
    (_factors : List String) : String :=
  let explanations : List String :=
    if is_ai then
      let e : List String := []
      let e := if 0 < features.ai_phrase_count then
        e ++ ["Contains typical AI assistant phrases"] else e
      let e := if 2 < features.formal_transition_count then
        e ++ ["Uses formal transitions like " ++ apos.toString ++ "furthermore" ++
          apos.toString ++ " and " ++ apos.toString ++ "moreover" ++ apos.toString] else e
      let e := if features.lexical_diversity > 0.75 then
        e ++ ["High vocabulary diversity typical of AI"] else e
      let e := if features.avg_sentence_length > 25 then
        e ++ ["Consistently long, complex sentences"] else e
      let e := if features.sentence_length_variance < 10 ∧ 2 < features.sentence_count then
        e ++ ["Very uniform sentence structure"] else e
      let e := if features.contraction_count = 0 ∧ 50 < features.word_count then
        e ++ ["Formal tone with no contractions"] else e
      if e = [] then ["Text structure and patterns suggest AI generation"] else e
    else
      let e : List String := []
      let e := if 0 < features.slang_count then
        e ++ ["Uses informal language and slang"] else e
      let e := if 0 < features.repeated_chars then
        e ++ ["Contains emotional expressions with repeated characters"] else e
      let e := if 0 < features.exclamation_count ∨ 1 < features.question_count then
        e ++ ["Varied punctuation suggests human writing"] else e
      let e := if 0 < features.contraction_count then
        e ++ ["Natural use of contractions"] else e
      let e := if features.sentence_length_variance > 30 then
        e ++ ["Sentence lengths vary naturally"] else e
      let e := if features.lexical_diversity < 0.65 then
        e ++ ["Natural word repetition patterns"] else e
      if e = [] then ["Writing style and patterns suggest human authorship"] else e
  String.intercalate ". " explanations ++ ". " ++
    ("Confidence: " ++ fmtFixed 1 (confidence * 100) ++ "%")

/-- The response model of the `/detect` endpoint, field names as in the
source's `DetectionResponse`. -/
structure DetectionResponse where
  is_ai_generated : Bool
  confidence : ℚ
  human_probability : ℚ
  ai_probability : ℚ
  explanation : String
  features : FeatureSet
  deriving DecidableEq

/-- The `/detect` handler `detect_text` of the source: validation gates,
then feature extraction, scoring and explanation.  An `HTTPException`
with status 400 is modelled as `Except.error` carrying the detail string. -/
def detect_text (input : String) : Except String DetectionResponse :=
  let text := pyStrip input.data
  if text = [] then
    Except.error "Text cannot be empty"
  else if text.length < 10 then
    Except.error "Text too short for analysis (minimum 10 characters)"
  else if (pySplit text).length < 20 then
    Except.error ("Text is too short for reliable detection. " ++
      "Please provide at least 20 words (50+ words recommended for best accuracy)")
  else
    let features := analyze_text_features text
    let r := calculate_ai_score features
    let ai_prob := r.1
    let human_prob := r.2.1
    let factors := r.2.2
    let is_ai_generated := ai_prob > 0.5
    let confidence := max ai_prob human_prob
    let explanation := get_explanation is_ai_generated confidence features factors
    Except.ok
      { is_ai_generated := is_ai_generated
        confidence := confidence
        human_probability := human_prob
        ai_probability := ai_prob
        explanation := explanation
        features := features }

/-!
## Decomposition of the scorer into its rule steps

The eleven additive rules of `calculate_ai_score` (features 1-10 of the
source, the punctuation rule being two independent steps) as score deltas,
followed by the three non-additive steps: short-text dampening,
perfect-structure bonus and the final clamp.
-/

/-- Step 1 delta: AI-phrase boost. -/
def deltaAiPhrases (fs : FeatureSet) : ℚ :=
  if 0 < fs.ai_phrase_count then min 0.25 ((fs.ai_phrase_count : ℚ) * 0.15) else 0

/-- Step 2 delta: lexical diversity. -/
def deltaDiversity (fs : FeatureSet) : ℚ :=
  if fs.lexical_diversity > 0.80 then 0.15
  else if fs.lexical_diversity < 0.60 then -0.12 else 0

/-- Step 3 delta: sentence-length uniformity. -/
def deltaUniformity (fs : FeatureSet) : ℚ :=
  if fs.sentence_length_variance < 10 ∧ 2 < fs.sentence_count then 0.12
  else if fs.sentence_length_variance > 30 then -0.10 else 0

/-- Step 4 delta: average sentence length. -/
def deltaSentenceLen (fs : FeatureSet) : ℚ :=
  if fs.avg_sentence_length > 25 then 0.10
  else if fs.avg_sentence_length < 15 then -0.08 else 0

/-- Step 5 delta: formal transitions. -/
def deltaFormal (fs : FeatureSet) : ℚ :=
  if 2 < fs.formal_transition_count then 0.12 else 0

/-- Step 6 delta: punctuation variety. -/
def deltaPunct (fs : FeatureSet) : ℚ :=
  if 0 < fs.exclamation_count ∨ 1 < fs.question_count then -0.10 else 0

/-- Step 7 delta: ellipsis usage. -/
def deltaEllipsis (fs : FeatureSet) : ℚ :=
  if 0 < fs.ellipsis_count then -0.08 else 0

/-- Step 8 delta: contraction ratio. -/
def deltaContraction (fs : FeatureSet) : ℚ :=
  if (fs.contraction_count : ℚ) / (max fs.word_count 1 : ℕ) > 0.03 then -0.12
  else if (fs.contraction_count : ℚ) / (max fs.word_count 1 : ℕ) = 0 ∧ 50 < fs.word_count
  then 0.08 else 0

/-- Step 9 delta: slang. -/
def deltaSlang (fs : FeatureSet) : ℚ :=
  if 0 < fs.slang_count then -(min 0.20 ((fs.slang_count : ℚ) * 0.10)) else 0

/-- Step 10 delta: repeated characters. -/
def deltaRepeated (fs : FeatureSet) : ℚ :=
  if 0 < fs.repeated_chars then -0.10 else 0

/-- Step 11 delta: uppercase emphasis. -/
def deltaUppercase (fs : FeatureSet) : ℚ :=
  if FeatureSet.uppercase_word_ratio fs > 0.05 then -0.08 else 0

/-- The eleven additive rule deltas, in source evaluation order. -/
def additiveDeltas : List (FeatureSet → ℚ) :=
  [deltaAiPhrases, deltaDiversity, deltaUniformity, deltaSentenceLen,
   deltaFormal, deltaPunct, deltaEllipsis, deltaContraction, deltaSlang,
   deltaRepeated, deltaUppercase]

/-- Accumulate a list of deltas onto the neutral base score 0.5. -/
def deltaFold (l : List (FeatureSet → ℚ)) (fs : FeatureSet) : ℚ :=
  l.foldl (fun s d => s + d fs) 0.5

/-- Step 12: short-text dampening (non-additive). -/
def dampStep (fs : FeatureSet) (s : ℚ) : ℚ :=
  if fs.word_count < 30 then 0.5 + (s - 0.5) * 0.6 else s

/-- The guard of the perfect-structure bonus (step 13). -/
def bonusCond (fs : FeatureSet) : Prop :=
  fs.exclamation_count = 0 ∧ fs.slang_count = 0 ∧ fs.repeated_chars = 0 ∧
    fs.lexical_diversity > 0.75 ∧ 40 < fs.word_count

instance (fs : FeatureSet) : Decidable (bonusCond fs) := by
  unfold bonusCond; infer_instance

/-- Step 13: perfect-structure bonus, applied after dampening. -/
def bonusStep (fs : FeatureSet) (s : ℚ) : ℚ :=
  if bonusCond fs then s + 0.10 else s

/-- Step 14: clamp to the interval `[0.05, 0.95]`. -/
def clampQ (s : ℚ) : ℚ :=
  max 0.05 (min 0.95 s)

/-- The running score right before the final clamp. -/
def preClamp (fs : FeatureSet) : ℚ :=
  bonusStep fs (dampStep fs (deltaFold additiveDeltas fs))

/-- An additive delta as a score-transformer step. -/
def stepAdd (d : FeatureSet → ℚ) (fs : FeatureSet) (s : ℚ) : ℚ :=
  s + d fs

/-- The 14 steps of `calculate_ai_score`, in source evaluation order. -/
def allSteps : List (FeatureSet → ℚ → ℚ) :=
  additiveDeltas.map stepAdd ++ [dampStep, bonusStep, fun _ s => clampQ s]

/-- Run a list of score-transformer steps from the neutral base score 0.5. -/
def runSteps (l : List (FeatureSet → ℚ → ℚ)) (fs : FeatureSet) : ℚ :=
  l.foldl (fun s f => f fs s) 0.5

/-- `allSteps` with step 1 (the AI-phrase boost) moved after step 12 (the
short-text dampening): a permutation of the steps. -/
def permutedSteps : List (FeatureSet → ℚ → ℚ) :=
  ((additiveDeltas.tail.map stepAdd ++ [dampStep]) ++ stepAdd deltaAiPhrases ::
    [bonusStep, fun _ s => clampQ s])

/-!
## Concrete inputs used by witnesses and counterexamples
-/

/-- A 20-word neutral FeatureSet (one AI phrase, short text): realizable,
and a short-dampened input. -/
def cexFs : FeatureSet :=
  { word_count := 20
    char_count := 100
    avg_word_length := 4
    sentence_count := 1
    avg_sentence_length := 20
    sentence_length_variance := 0
    lexical_diversity := 0.7
    ai_phrase_count := 1
    exclamation_count := 0
    question_count := 0
    ellipsis_count := 0
    comma_count := 0
    uppercase_word_ratio := 0
    contraction_count := 0
    slang_count := 0
    repeated_chars := 0
    formal_transition_count := 0 }

/-- A long neutral FeatureSet on which no scoring rule fires. -/
def neutralFs : FeatureSet :=
  { word_count := 60
    char_count := 320
    avg_word_length := 4
    sentence_count := 3
    avg_sentence_length := 20
    sentence_length_variance := 20
    lexical_diversity := 0.7
    ai_phrase_count := 0
    exclamation_count := 0
    question_count := 1
    ellipsis_count := 0
    comma_count := 2
    uppercase_word_ratio := 0.02
    contraction_count := 1
    slang_count := 0
    repeated_chars := 0
    formal_transition_count := 0 }

/-- A FeatureSet on which every positive rule fires, saturating the 0.95
clamp with no AI phrase at all. -/
def maxFs : FeatureSet :=
  { word_count := 60
    char_count := 400
    avg_word_length := 6
    sentence_count := 4
    avg_sentence_length := 30
    sentence_length_variance := 5
    lexical_diversity := 0.85
    ai_phrase_count := 0
    exclamation_count := 0
    question_count := 0
    ellipsis_count := 0
    comma_count := 3
    uppercase_word_ratio := 0
    contraction_count := 0
    slang_count := 0
    repeated_chars := 0
    formal_transition_count := 3 }

/-- A 20-word, one-sentence text with 14 distinct lowered tokens: no scoring
rule moves the score, which stays exactly at the neutral 0.5. -/
def tNeutral : String :=
  "alpha beta gamma delta epsilon zeta eta theta iota kappa lambda mu nu alpha beta gamma delta epsilon zeta eta."

/-- Three sentences of five words each: sentence word-counts [5,5,5]. -/
def tVarZero : String := "a b c d e. f g h i j. k l m n o."

/-- Two sentences of one and ten words: sentence word-counts [1,10]. -/
def tVarTwo : String := "a. b c d e f g h i j k."

/-- The concatenation (space-separated) of all 22 AI phrases: every phrase
of the list occurs in it. -/
def tAllPhrases : List Char :=
  List.intercalate [' '] ai_phrases

/-!
## Helper lemmas
-/

theorem add_deltaAiPhrases (fs : FeatureSet) (s : ℚ) :
    s + deltaAiPhrases fs =
      if 0 < fs.ai_phrase_count then s + min 0.25 ((fs.ai_phrase_count : ℚ) * 0.15) else s := by
  unfold deltaAiPhrases; split <;> ring

theorem add_deltaDiversity (fs : FeatureSet) (s : ℚ) :
    s + deltaDiversity fs =
      if fs.lexical_diversity > 0.80 then s + 0.15
      else if fs.lexical_diversity < 0.60 then s - 0.12 else s := by
  unfold deltaDiversity
  split
  · ring
  · split <;> ring

theorem add_deltaUniformity (fs : FeatureSet) (s : ℚ) :
    s + deltaUniformity fs =
      if fs.sentence_length_variance < 10 ∧ 2 < fs.sentence_count then s + 0.12
      else if fs.sentence_length_variance > 30 then s - 0.10 else s := by
  unfold deltaUniformity
  split
  · ring
  · split <;> ring

theorem add_deltaSentenceLen (fs : FeatureSet) (s : ℚ) :
    s + deltaSentenceLen fs =
      if fs.avg_sentence_length > 25 then s + 0.10
      else if fs.avg_sentence_length < 15 then s - 0.08 else s := by
  unfold deltaSentenceLen
  split
  · ring
  · split <;> ring

theorem add_deltaFormal (fs : FeatureSet) (s : ℚ) :
    s + deltaFormal fs =
      if 2 < fs.formal_transition_count then s + 0.12 else s := by
  unfold deltaFormal; split <;> ring

theorem add_deltaPunct (fs : FeatureSet) (s : ℚ) :
    s + deltaPunct fs =
      if 0 < fs.exclamation_count ∨ 1 < fs.question_count then s - 0.10 else s := by
  unfold deltaPunct; split <;> ring

theorem add_deltaEllipsis (fs : FeatureSet) (s : ℚ) :
    s + deltaEllipsis fs =
      if 0 < fs.ellipsis_count then s - 0.08 else s := by
  unfold deltaEllipsis; split <;> ring

theorem add_deltaContraction (fs : FeatureSet) (s : ℚ) :
    s + deltaContraction fs =
      (if (fs.contraction_count : ℚ) / (max fs.word_count 1 : ℕ) > 0.03 then s - 0.12
       else if (fs.contraction_count : ℚ) / (max fs.word_count 1 : ℕ) = 0 ∧ 50 < fs.word_count
       then s + 0.08 else s) := by
  unfold deltaContraction
  split
  · ring
  · split <;> ring

theorem add_deltaSlang (fs : FeatureSet) (s : ℚ) :
    s + deltaSlang fs =
      if 0 < fs.slang_count then s - min 0.20 ((fs.slang_count : ℚ) * 0.10) else s := by
  unfold deltaSlang; split <;> ring

theorem add_deltaRepeated (fs : FeatureSet) (s : ℚ) :
    s + deltaRepeated fs =
      if 0 < fs.repeated_chars then s - 0.10 else s := by
  unfold deltaRepeated; split <;> ring

theorem add_deltaUppercase (fs : FeatureSet) (s : ℚ) :
    s + deltaUppercase fs =
      if FeatureSet.uppercase_word_ratio fs > 0.05 then s - 0.08 else s := by
  unfold deltaUppercase; split <;> ring

/-- The first component of `calculate_ai_score` is the clamp of the
composition: additive deltas, then dampening, then bonus. -/
theorem score_decomp (fs : FeatureSet) :
    (calculate_ai_score fs).1 = clampQ (preClamp fs) := by
  simp only [calculate_ai_score, preClamp, clampQ, bonusStep, bonusCond, dampStep,
    deltaFold, additiveDeltas, List.foldl_cons, List.foldl_nil,
    add_deltaAiPhrases, add_deltaDiversity, add_deltaUniformity, add_deltaSentenceLen,
    add_deltaFormal, add_deltaPunct, add_deltaEllipsis, add_deltaContraction,
    add_deltaSlang, add_deltaRepeated, add_deltaUppercase]

/-- The second component of `calculate_ai_score` is one minus the first. -/
theorem score_pair (fs : FeatureSet) :
    (calculate_ai_score fs).2.1 = 1 - (calculate_ai_score fs).1 := by
  simp only [calculate_ai_score]

/-- The clamp stays inside `[0.05, 0.95]`. -/
theorem clampQ_bounds (s : ℚ) : 0.05 ≤ clampQ s ∧ clampQ s ≤ 0.95 := by
  unfold clampQ
  constructor
  · exact le_max_left _ _
  · exact max_le (by norm_num) (min_le_left _ _)

/-- Folding deltas is adding their sum to the base score. -/
theorem deltaFold_eq_sum (fs : FeatureSet) :
    ∀ (l : List (FeatureSet → ℚ)) (s : ℚ),
      l.foldl (fun a d => a + d fs) s = s + (l.map (fun d => d fs)).sum
  | [], s => by simp
  | d :: l, s => by
    simp only [List.foldl_cons, List.map_cons, List.sum_cons]
    rw [deltaFold_eq_sum fs l (s + d fs)]
    ring

/-- Dampening is strictly monotone in the score. -/
theorem dampStep_lt (fs : FeatureSet) {s t : ℚ} (h : s < t) :
    dampStep fs s < dampStep fs t := by
  unfold dampStep; split <;> linarith

/-- The bonus step is strictly monotone in the score. -/
theorem bonusStep_lt (fs : FeatureSet) {s t : ℚ} (h : s < t) :
    bonusStep fs s < bonusStep fs t := by
  unfold bonusStep; split <;> linarith

/-- The clamp is strictly monotone away from its saturation zones. -/
theorem clampQ_lt {s t : ℚ} (h : s < t) (hs : s < 0.95) (ht : 0.05 < t) :
    clampQ s < clampQ t := by
  unfold clampQ
  rw [min_eq_right (le_of_lt hs), max_eq_right (le_min (by norm_num) (le_of_lt ht))]
  exact max_lt (lt_min (by norm_num) ht) (lt_min hs h)

section
attribute [local semireducible] Rat.ofScientific Rat.mul Rat.inv Rat.add Rat.sub
set_option maxRecDepth 100000

/-- C1: for every input text, the score pair returned by
`calculate_ai_score` sums to exactly 1 and its `ai_probability` component
lies in the closed interval `[0.05, 0.95]`. -/
theorem C1_probability_pair (text : String) :
    (calculate_ai_score (analyze_text_features (pyStrip text.data))).1 +
        (calculate_ai_score (analyze_text_features (pyStrip text.data))).2.1 = 1 ∧
      0.05 ≤ (calculate_ai_score (analyze_text_features (pyStrip text.data))).1 ∧
      (calculate_ai_score (analyze_text_features (pyStrip text.data))).1 ≤ 0.95 := by
  refine ⟨?_, ?_, ?_⟩
  · rw [score_pair]; ring
  · rw [score_decomp]; exact (clampQ_bounds _).1
  · rw [score_decomp]; exact (clampQ_bounds _).2

/-- C1 witness: the property evaluated at a concrete accepted input. -/
theorem C1_probability_pair_witness :
    (calculate_ai_score (analyze_text_features (pyStrip tNeutral.data))).1 +
        (calculate_ai_score (analyze_text_features (pyStrip tNeutral.data))).2.1 = 1 ∧
      0.05 ≤ (calculate_ai_score (analyze_text_features (pyStrip tNeutral.data))).1 ∧
      (calculate_ai_score (analyze_text_features (pyStrip tNeutral.data))).1 ≤ 0.95 :=
  C1_probability_pair tNeutral

/-- C2 counterexample: moving the AI-phrase boost (step 1) after the
short-text dampening (step 12) is a permutation of the 14 steps that
changes the final clamped score on a concrete FeatureSet. -/
theorem C2_perm_counterexample :
    permutedSteps.Perm allSteps ∧
      runSteps permutedSteps cexFs ≠ runSteps allSteps cexFs := by
  constructor
  · have h : ((additiveDeltas.tail.map stepAdd ++ [dampStep]) ++
        [stepAdd deltaAiPhrases]).Perm
        (stepAdd deltaAiPhrases :: (additiveDeltas.tail.map stepAdd ++ [dampStep])) :=
      List.perm_append_singleton _ _
    have h2 := h.append_right [bonusStep, fun _ s => clampQ s]
    simp only [permutedSteps, allSteps, additiveDeltas, List.map_cons, List.map_nil,
      List.tail_cons, List.cons_append, List.nil_append, List.append_assoc] at h2 ⊢
    exact h2
  · decide

/-- C2 amended: permuting the eleven additive steps among themselves never
changes the final score; the three non-additive steps (dampening, bonus,
clamp) stay in source order. -/
theorem C2_additive_perm (fs : FeatureSet) (l : List (FeatureSet → ℚ))
    (h : l.Perm additiveDeltas) :
    clampQ (bonusStep fs (dampStep fs (deltaFold l fs))) = (calculate_ai_score fs).1 := by
  rw [score_decomp, preClamp]
  have hsum : deltaFold l fs = deltaFold additiveDeltas fs := by
    unfold deltaFold
    rw [deltaFold_eq_sum fs l, deltaFold_eq_sum fs additiveDeltas, (h.map _).sum_eq]
  rw [hsum]

/-- C2 witness: the amended statement at a concrete permutation (the
reversed delta list) and a concrete FeatureSet. -/
theorem C2_additive_perm_witness :
    clampQ (bonusStep cexFs (dampStep cexFs (deltaFold additiveDeltas.reverse cexFs))) =
      (calculate_ai_score cexFs).1 :=
  C2_additive_perm cexFs additiveDeltas.reverse (List.reverse_perm additiveDeltas)

/-- C3 counterexample: on a FeatureSet whose other rules already saturate
the 0.95 clamp, raising `ai_phrase_count` from 0 to 1 does not change
`ai_probability` (no strict increase, although the 0.25 boost cap is not
reached). -/
theorem C3_clamp_counterexample :
    maxFs.ai_phrase_count = 0 ∧
      (calculate_ai_score maxFs).1 = 0.95 ∧
      (calculate_ai_score { maxFs with ai_phrase_count := 1 }).1 = 0.95 := by
  refine ⟨rfl, ?_, ?_⟩ <;> decide

/-- C3 amended: raising `ai_phrase_count` from 0 to 1 strictly increases
`ai_probability` whenever the clamp does not saturate (the pre-clamp score
starts below 0.95 and ends above 0.05). -/
theorem C3_phrase_monotone (fs : FeatureSet) (h0 : fs.ai_phrase_count = 0)
    (h1 : preClamp fs < 0.95)
    (h2 : 0.05 < preClamp { fs with ai_phrase_count := 1 }) :
    (calculate_ai_score fs).1 < (calculate_ai_score { fs with ai_phrase_count := 1 }).1 := by
  rw [score_decomp, score_decomp]
  refine clampQ_lt ?_ h1 h2
  show preClamp fs < preClamp { fs with ai_phrase_count := 1 }
  have e1 : deltaAiPhrases { fs with ai_phrase_count := 1 } = 0.15 := by
    simp only [deltaAiPhrases]
    norm_num [min_def]
  have e0 : deltaAiPhrases fs = 0 := by
    simp [deltaAiPhrases, h0]
  have hfold : deltaFold additiveDeltas { fs with ai_phrase_count := 1 } =
      deltaFold additiveDeltas fs + 0.15 := by
    unfold deltaFold
    simp only [additiveDeltas, List.foldl_cons, List.foldl_nil]
    have e2 : deltaDiversity { fs with ai_phrase_count := 1 } = deltaDiversity fs := rfl
    have e3 : deltaUniformity { fs with ai_phrase_count := 1 } = deltaUniformity fs := rfl
    have e4 : deltaSentenceLen { fs with ai_phrase_count := 1 } = deltaSentenceLen fs := rfl
    have e5 : deltaFormal { fs with ai_phrase_count := 1 } = deltaFormal fs := rfl
    have e6 : deltaPunct { fs with ai_phrase_count := 1 } = deltaPunct fs := rfl
    have e7 : deltaEllipsis { fs with ai_phrase_count := 1 } = deltaEllipsis fs := rfl
    have e8 : deltaContraction { fs with ai_phrase_count := 1 } = deltaContraction fs := rfl
    have e9 : deltaSlang { fs with ai_phrase_count := 1 } = deltaSlang fs := rfl
    have e10 : deltaRepeated { fs with ai_phrase_count := 1 } = deltaRepeated fs := rfl
    have e11 : deltaUppercase { fs with ai_phrase_count := 1 } = deltaUppercase fs := rfl
    rw [e1, e0, e2, e3, e4, e5, e6, e7, e8, e9, e10, e11]
    ring
  have hdamp : dampStep { fs with ai_phrase_count := 1 } = dampStep fs := rfl
  have hbonus : bonusStep { fs with ai_phrase_count := 1 } = bonusStep fs := rfl
  unfold preClamp
  rw [hfold, hdamp, hbonus]
  exact bonusStep_lt fs (dampStep_lt fs (by linarith))

/-- C3 witness: the amended statement at a concrete neutral FeatureSet,
where the increase is strict (0.5 to 0.65). -/
theorem C3_phrase_monotone_witness :
    neutralFs.ai_phrase_count = 0 ∧ preClamp neutralFs < 0.95 ∧
      0.05 < preClamp { neutralFs with ai_phrase_count := 1 } ∧
      (calculate_ai_score neutralFs).1 <
        (calculate_ai_score { neutralFs with ai_phrase_count := 1 }).1 :=
  ⟨rfl, by decide, by decide, C3_phrase_monotone neutralFs rfl (by decide) (by decide)⟩

/-- C4 counterexample: no FeatureSet is both short-dampened
(`word_count < 30`) and eligible for the perfect-structure bonus, whose
guard requires `word_count > 40` - the claimed input does not exist. -/
theorem C4_no_short_bonus :
    ¬ ∃ fs : FeatureSet, fs.word_count < 30 ∧ bonusCond fs := by
  rintro ⟨fs, hlt, hb⟩
  have := hb.2.2.2.2
  omega

/-- C4 amended: the bonus step is applied after the dampening step in the
score pipeline, but on any short-dampened input (`word_count < 30`) it
never fires, so the final score is the clamped dampened sum. -/
theorem C4_bonus_after_damp (fs : FeatureSet) (h : fs.word_count < 30) :
    (calculate_ai_score fs).1 =
        clampQ (bonusStep fs (dampStep fs (deltaFold additiveDeltas fs))) ∧
      (calculate_ai_score fs).1 = clampQ (dampStep fs (deltaFold additiveDeltas fs)) := by
  have h1 := score_decomp fs
  constructor
  · exact h1
  · rw [h1]
    unfold preClamp bonusStep
    rw [if_neg]
    intro hb
    have := hb.2.2.2.2
    omega

/-- C4 witness: the amended statement at a concrete 20-word FeatureSet. -/
theorem C4_bonus_after_damp_witness :
    cexFs.word_count < 30 ∧
      (calculate_ai_score cexFs).1 = clampQ (dampStep cexFs (deltaFold additiveDeltas cexFs)) :=
  ⟨by decide, (C4_bonus_after_damp cexFs (by decide)).2⟩

/-- C5: the `/detect` handler returns a client error exactly when the
trimmed text is empty, shorter than 10 characters, or has fewer than 20
whitespace-delimited words; otherwise extraction and scoring both run to
completion and their results are the ones in the response. -/
theorem C5_validation_gates (input : String) :
    ((∃ e, detect_text input = Except.error e) ↔
      (pyStrip input.data = [] ∨ (pyStrip input.data).length < 10 ∨
        (pySplit (pyStrip input.data)).length < 20)) ∧
    (∀ r, detect_text input = Except.ok r →
      r.features = analyze_text_features (pyStrip input.data) ∧
      r.ai_probability = (calculate_ai_score (analyze_text_features (pyStrip input.data))).1) := by
  simp only [detect_text]
  split
  case isTrue h =>
    refine ⟨⟨fun _ => Or.inl h, fun _ => ⟨_, rfl⟩⟩, fun r hr => by simp at hr⟩
  case isFalse h1 =>
    split
    case isTrue h2 =>
      refine ⟨⟨fun _ => Or.inr (Or.inl h2), fun _ => ⟨_, rfl⟩⟩, fun r hr => by simp at hr⟩
    case isFalse h2 =>
      split
      case isTrue h3 =>
        refine ⟨⟨fun _ => Or.inr (Or.inr h3), fun _ => ⟨_, rfl⟩⟩, fun r hr => by simp at hr⟩
      case isFalse h3 =>
        refine ⟨⟨fun he => ?_, fun hc => ?_⟩, fun r hr => ?_⟩
        · obtain ⟨e, he⟩ := he
          simp at he
        · rcases hc with hc | hc | hc
          · exact absurd hc h1
          · exact absurd hc h2
          · exact absurd hc h3
        · injection hr with hr
          subst hr
          exact ⟨rfl, rfl⟩

/-- C6: `sentence_length_variance` is 0 whenever there are fewer than two
sentences, and it is the population variance of the per-sentence word
counts: 0 for counts `[5,5,5]` and 20.25 for counts `[1,10]`. -/
theorem C6_population_variance (t : List Char)
    (h : (analyze_text_features t).sentence_count < 2) :
    (analyze_text_features t).sentence_length_variance = 0 ∧
      (analyze_text_features tVarZero.data).sentence_length_variance = 0 ∧
      (analyze_text_features tVarTwo.data).sentence_length_variance = 81 / 4 := by
  refine ⟨?_, by decide, by decide⟩
  have hs : (pySentences t).length < 2 := by simpa [analyze_text_features] using h
  simp only [analyze_text_features]
  rw [if_neg]
  omega

/-- C6 witness: the single-sentence input "a". -/
theorem C6_population_variance_witness :
    (analyze_text_features "a".data).sentence_count < 2 ∧
      ((analyze_text_features "a".data).sentence_length_variance = 0 ∧
        (analyze_text_features tVarZero.data).sentence_length_variance = 0 ∧
        (analyze_text_features tVarTwo.data).sentence_length_variance = 81 / 4) :=
  ⟨by decide, C6_population_variance "a".data (by decide)⟩

/-- C7: the extractor is total - every guarded denominator is positive for
every text - and each degenerate input (single character, punctuation-only
text, text with no sentence terminator) yields the complete default-valued
FeatureSet rather than an error. -/
theorem C7_extractor_total :
    (∀ t : List Char, 0 < max (pySplit t).length 1 ∧ 0 < max (pySentences t).length 1) ∧
      analyze_text_features "a".data =
        { word_count := 1, char_count := 1, avg_word_length := 1, sentence_count := 1,
          avg_sentence_length := 1, sentence_length_variance := 0, lexical_diversity := 1,
          ai_phrase_count := 0, exclamation_count := 0, question_count := 0,
          ellipsis_count := 0, comma_count := 0, uppercase_word_ratio := 0,
          contraction_count := 0, slang_count := 0, repeated_chars := 0,
          formal_transition_count := 0 } ∧
      analyze_text_features "!?!".data =
        { word_count := 1, char_count := 3, avg_word_length := 3, sentence_count := 0,
          avg_sentence_length := 1, sentence_length_variance := 0, lexical_diversity := 1,
          ai_phrase_count := 0, exclamation_count := 2, question_count := 1,
          ellipsis_count := 0, comma_count := 0, uppercase_word_ratio := 0,
          contraction_count := 0, slang_count := 0, repeated_chars := 0,
          formal_transition_count := 0 } ∧
      analyze_text_features "hello world".data =
        { word_count := 2, char_count := 11, avg_word_length := 5, sentence_count := 1,
          avg_sentence_length := 2, sentence_length_variance := 0, lexical_diversity := 1,
          ai_phrase_count := 0, exclamation_count := 0, question_count := 0,
          ellipsis_count := 0, comma_count := 0, uppercase_word_ratio := 0,
          contraction_count := 0, slang_count := 0, repeated_chars := 0,
          formal_transition_count := 0 } := by
  refine ⟨fun t => ⟨?_, ?_⟩, by decide, by decide, by decide⟩ <;> omega

/-- C8: for every accepted input, the response confidence is the maximum of
the two probabilities and lies in `[0.5, 0.95]`. -/
theorem C8_confidence_bounds (input : String) (r : DetectionResponse)
    (h : detect_text input = Except.ok r) :
    r.confidence = max r.ai_probability r.human_probability ∧
      1/2 ≤ r.confidence ∧ r.confidence ≤ 0.95 := by
  simp only [detect_text] at h
  split at h
  · simp at h
  · split at h
    · simp at h
    · split at h
      · simp at h
      · injection h with h
        subst h
        have hb := clampQ_bounds (preClamp (analyze_text_features (pyStrip input.data)))
        rw [← score_decomp] at hb
        refine ⟨rfl, ?_, ?_⟩
        · show (1:ℚ)/2 ≤ max _ _
          rw [score_pair]
          rcases le_total
            ((calculate_ai_score (analyze_text_features (pyStrip input.data))).1) (1/2) with hc | hc
          · refine le_trans (by linarith) (le_max_right _ _)
          · exact le_trans hc (le_max_left _ _)
        · show max _ _ ≤ (0.95 : ℚ)
          rw [score_pair]
          exact max_le hb.2 (by linarith [hb.1])

/-- C8 witness: the property at a concrete accepted 20-word input. -/
theorem C8_confidence_bounds_witness :
    ∃ r, detect_text tNeutral = Except.ok r ∧
      (r.confidence = max r.ai_probability r.human_probability ∧
        1/2 ≤ r.confidence ∧ r.confidence ≤ 0.95) :=
  ⟨_, rfl, C8_confidence_bounds tNeutral _ rfl⟩

/-- C9 counterexample: the AI-phrase list has 22 entries, and the text
containing each of them reaches `ai_phrase_count = 22`, refuting the
claimed bound of 21. -/
theorem C9_phrase_count_22 :
    (analyze_text_features tAllPhrases).ai_phrase_count = 22 ∧
      ¬ (analyze_text_features tAllPhrases).ai_phrase_count ≤ 21 := by
  constructor <;> decide

/-- C9 amended: phrase and transition counts are membership counts over
fixed lists, hence bounded by the list lengths - 22 for `ai_phrases`
(not 21) and 9 for `formal_transitions` - no matter how often any phrase
repeats in the text. -/
theorem C9_membership_bounds (t : List Char) :
    (analyze_text_features t).ai_phrase_count ≤ 22 ∧
      (analyze_text_features t).formal_transition_count ≤ 9 ∧
      ai_phrases.length = 22 ∧ formal_transitions.length = 9 := by
  refine ⟨?_, ?_, rfl, rfl⟩
  · have h := List.countP_le_length (p := fun p => isSubstr p (lowerChars t)) (l := ai_phrases)
    simpa [analyze_text_features] using h
  · have h := List.countP_le_length
      (p := fun w => isSubstr w (lowerChars t)) (l := formal_transitions)
    simpa [analyze_text_features] using h

/-- C10: a response whose `ai_probability` is exactly 0.5 is labelled
human (`is_ai_generated = false`), has confidence 0.5, and its explanation
is produced by the human branch of `get_explanation`. -/
theorem C10_boundary_defaults_human (input : String) (r : DetectionResponse)
    (h : detect_text input = Except.ok r) (hhalf : r.ai_probability = 1/2) :
    r.is_ai_generated = false ∧ r.confidence = 1/2 ∧
      r.explanation = get_explanation false r.confidence r.features
        (calculate_ai_score r.features).2.2 := by
  simp only [detect_text] at h
  split at h
  · simp at h
  · split at h
    · simp at h
    · split at h
      · simp at h
      · injection h with h
        subst h
        have hai :
            (calculate_ai_score (analyze_text_features (pyStrip input.data))).1 = 1/2 := hhalf
        have hdec : (decide
            ((calculate_ai_score (analyze_text_features (pyStrip input.data))).1 > 0.5)) = false := by
          rw [hai]; norm_num
        have hconf : max (calculate_ai_score (analyze_text_features (pyStrip input.data))).1
            (calculate_ai_score (analyze_text_features (pyStrip input.data))).2.1 = 1/2 := by
          rw [score_pair, hai]; norm_num
        refine ⟨hdec, hconf, ?_⟩
        simp only [hdec]

/-- C10 witness: a concrete accepted 20-word text on which no rule moves
the score, so `ai_probability` is exactly 0.5. -/
theorem C10_boundary_defaults_human_witness :
    ∃ r, detect_text tNeutral = Except.ok r ∧ r.ai_probability = 1/2 ∧
      (r.is_ai_generated = false ∧ r.confidence = 1/2 ∧
        r.explanation = get_explanation false r.confidence r.features
          (calculate_ai_score r.features).2.2) :=
  ⟨_, rfl, by decide, C10_boundary_defaults_human tNeutral _ rfl (by decide)⟩

end

end FakeBot
